import Mathlib

/-!
# Verification of the spc-player core

Shallow embedding of the spc-player repository: the serial transport
protocol driver (`spcduino.ts`) and the binary image composer
(`spc-writer.ts` / `programs.ts`), together with theorems settling the
frozen claims about the natural-language specification.

Buffers are modelled as `List Nat` (byte lists) or, for the 64KB program
memory, as functions `Nat → Nat`.  All modelled values are byte-sized in
every run of the real program (they are read from `Buffer`s), so `Buffer`
stores are modelled as plain stores.
-/

set_option maxRecDepth 100000

namespace SpcPlayer

/-! ## Constants from src/spcduino.ts -/

/-- Command code: resets the SPC700. -/
def CMD_RESET : Nat := 1
/-- Command code: sends the DSP loader program and register data. -/
def CMD_LOAD_DSP : Nat := 2
/-- Command code: begins SPC memory transfer. -/
def CMD_START_SPC : Nat := 3
/-- Command code: transfers another chunk of SPC data. -/
def CMD_SPC_CHUNK : Nat := 4
/-- Command code: sends the parameters for playing the SPC. -/
def CMD_PLAY : Nat := 5

/-- Response code: okay. -/
def RSP_OKAY : Nat := 1
/-- Response code: failure. -/
def RSP_FAIL : Nat := 2
/-- Response code: the device rejected a frame's checksum. -/
def RSP_BAD_CHECKSUM : Nat := 3
/-- Response code: device ready after reboot. -/
def RSP_READY : Nat := 86

/-- Maximum number of bytes to send in any serial transaction. -/
def MAX_SEND_SIZE : Nat := 64
/-- `0xEF - 2`: size of the zero-page slice sent by `loadSPC`. -/
def ZERO_PAGE_SIZE : Nat := 0xEF - 2
/-- Size of one SPC body chunk. -/
def SPC_CHUNK_SIZE : Nat := 0x80

/-! ## Checksum and framing (src/spcduino.ts, `calculateChecksum` /
`prepareBufferForSending`) -/

/-- `Spcduino.calculateChecksum`: left fold of `(prev + cur) & 0xFF`
starting from `0`. -/
def calculateChecksum (buffer : List Nat) : Nat :=
  buffer.foldl (fun previousValue currentValue => (previousValue + currentValue) &&& 0xFF) 0

/-- `Spcduino.prepareBufferForSending`: the buffer with its checksum
appended. -/
def prepareBufferForSending (buffer : List Nat) : List Nat :=
  buffer ++ [calculateChecksum buffer]

lemma and_255_eq_mod (n : Nat) : n &&& 0xFF = n % 256 := by
  have h := Nat.and_pow_two_sub_one_eq_mod n 8
  norm_num at h
  exact h

lemma calculateChecksum_foldl (buffer : List Nat) :
    ∀ acc : Nat,
      buffer.foldl (fun previousValue currentValue =>
        (previousValue + currentValue) &&& 0xFF) (acc % 256) = (acc + buffer.sum) % 256 := by
  induction buffer with
  | nil => intro acc; simp
  | cons b t ih =>
    intro acc
    simp only [List.foldl_cons, List.sum_cons]
    rw [and_255_eq_mod, Nat.mod_add_mod, ih (acc + b)]
    ring_nf

lemma calculateChecksum_eq_sum_mod (buffer : List Nat) :
    calculateChecksum buffer = buffer.sum % 256 := by
  have h := calculateChecksum_foldl buffer 0
  simpa [calculateChecksum] using h

lemma calculateChecksum_lt (buffer : List Nat) : calculateChecksum buffer < 256 := by
  rw [calculateChecksum_eq_sum_mod]
  exact Nat.mod_lt _ (by norm_num)

/-- **C7.** For every byte sequence `b`, `calculateChecksum b` equals
`sum b mod 256`, and recomputing the checksum over `b` with its own
checksum appended yields `(2 * calculateChecksum b) mod 256`. -/
theorem c7_checksum_sum_mod : ∀ b : List Nat,
    calculateChecksum b = b.sum % 256 ∧
    calculateChecksum (b ++ [calculateChecksum b]) = (2 * calculateChecksum b) % 256 := by
  intro b
  refine ⟨calculateChecksum_eq_sum_mod b, ?_⟩
  rw [calculateChecksum_eq_sum_mod, List.sum_append, List.sum_cons, List.sum_nil,
    calculateChecksum_eq_sum_mod]
  omega

/-! ## Transport protocol driver (src/spcduino.ts and its revisions)

Rejection values of the underlying promises are JavaScript values: the
raw response `Buffer` (`reject(data)` in `writeAndWait`), a string
(`reject('Port has not been opened')`), an `Error` object (modelled as a
string), or — never, in this code — a number.  The catch blocks test the
rejected value with strict equality `exc === RSP_BAD_CHECKSUM`, which in
JavaScript is true only when `exc` is the *number* 3. -/

/-- A JavaScript value that a promise in this driver can reject with. -/
inductive JsValue where
  | buf (bytes : List Nat)
  | str (s : String)
  | num (n : Nat)
deriving DecidableEq

/-- JavaScript strict equality `v === n` between an arbitrary rejected
value and a number: true only when `v` itself is that number. -/
def jsStrictEqNum : JsValue → Nat → Bool
  | JsValue.num m, n => m == n
  | _, _ => false

/-- `Spcduino.writeAndWait(buffer)`: if the port is not open the promise
is rejected with `'Port has not been opened'` (the first settlement
wins, so the promise stays rejected whatever happens afterwards);
otherwise the single response `data` of the device settles it —
`data[0] !== RSP_OKAY` rejects with the raw response buffer, else it
resolves.  `frame` is the buffer written to the wire; it does not
influence the settlement. -/
def writeAndWait (portIsOpen : Bool) (_frame : List Nat) (response : List Nat) :
    Except JsValue (List Nat) :=
  if !portIsOpen then Except.error (JsValue.str "Port has not been opened")
  else if response.headD 0 != RSP_OKAY then Except.error (JsValue.buf response)
  else Except.ok response

/-- The error message computed by the `catch` blocks of `initDsp` and
`loadSPC`: `exc === RSP_BAD_CHECKSUM ? 'Failed checksum' : 'Unknown
error'`. -/
def checksumErrorMsg (exc : JsValue) : String :=
  if jsStrictEqNum exc RSP_BAD_CHECKSUM then "Failed checksum" else "Unknown error"

/-- `Spcduino.reset()`: sends `[CMD_RESET]`, maps any rejection to
`'Error resetting SPC'`. -/
def reset (portIsOpen : Bool) (response : List Nat) : Except String Unit :=
  match writeAndWait portIsOpen [CMD_RESET] response with
  | Except.ok _ => Except.ok ()
  | Except.error _ => Except.error "Error resetting SPC"

/-- `Spcduino.initDsp(dspLoader, dspRegisters)` (src/spcduino.ts lines
69–83): sends `[CMD_LOAD_DSP, ...dspLoader, checksum]`, awaits OKAY,
then sends `[...dspRegisters, checksum]` and awaits OKAY.  Returns the
frames actually written together with the result; a rejection stops the
sequence, and the catch block maps the rejected value through
`checksumErrorMsg`.  `resp1`/`resp2` are the device's responses to the
two frames. -/
def initDsp (portIsOpen : Bool) (dspLoader dspRegisters : List Nat)
    (resp1 resp2 : List Nat) : List (List Nat) × Except String Unit :=
  let frame1 := CMD_LOAD_DSP :: prepareBufferForSending dspLoader
  match writeAndWait portIsOpen frame1 resp1 with
  | Except.error exc =>
      ([frame1], Except.error ("Error initializing DSP: " ++ checksumErrorMsg exc))
  | Except.ok _ =>
      let frame2 := prepareBufferForSending dspRegisters
      match writeAndWait portIsOpen frame2 resp2 with
      | Except.error exc =>
          ([frame1, frame2], Except.error ("Error initializing DSP: " ++ checksumErrorMsg exc))
      | Except.ok _ => ([frame1, frame2], Except.ok ())

/-- `Spcduino.play(bootLoaderAddress, portValues)` (part_001 lines
113–120): one frame `[CMD_PLAY, addrLow, addrHigh, port0..port3,
checksum]`, no catch block. -/
def play (portIsOpen : Bool) (bootLoaderAddress : Nat) (portValues : List Nat)
    (response : List Nat) : Except JsValue (List Nat) :=
  let cmdBuffer := prepareBufferForSending
    ((bootLoaderAddress &&& 0xFF) :: (bootLoaderAddress >>> 8) :: portValues)
  writeAndWait portIsOpen (CMD_PLAY :: cmdBuffer) response

/-- The zero-page buffer of `loadSPC`: `Buffer.alloc(ZERO_PAGE_SIZE)`
filled by `spcProgram.copy(buffer, 0, 2, 0xEF)`, i.e. program bytes
`[2, 0xEF)`. -/
def zeroPageBuffer (spcProgram : Nat → Nat) : List Nat :=
  (List.range ZERO_PAGE_SIZE).map (fun i => spcProgram (2 + i))

/-- The chunk-address schedule of `loadSPC`'s body loop (part_001 lines
93–99): `currentAddress` starts at `0x100` and advances by
`SPC_CHUNK_SIZE` while `currentAddress < 0xFFFF`.  `fuel` only bounds
the recursion; `0x10000` is more than the 510 iterations the loop
performs. -/
def chunkLoop : Nat → Nat → List Nat
  | 0, _ => []
  | fuel + 1, currentAddress =>
    if currentAddress < 0xFFFF then
      currentAddress :: chunkLoop fuel (currentAddress + SPC_CHUNK_SIZE)
    else []

/-- The list of start addresses of the body-phase chunks issued by
`Spcduino.loadSPC`. -/
def spcChunkStarts : List Nat := chunkLoop 0x10000 0x100

/-- `Spcduino.writeSpcChunk(addr, buffer)` (part_001 lines 193–208):
header frame `[CMD_SPC_CHUNK, addrLow, addrHigh, length, checksum]`
awaiting OKAY, then the payload `[...buffer, checksum]` awaiting OKAY.
A rejection is re-thrown as an `Error` object (a string; in particular
it is never the number `RSP_BAD_CHECKSUM`). -/
def writeSpcChunk (portIsOpen : Bool) (addr : Nat) (buffer : List Nat)
    (respHeader respData : List Nat) : Except JsValue (List Nat) :=
  let cmdBuffer := prepareBufferForSending [addr &&& 0xFF, addr >>> 8, buffer.length]
  match writeAndWait portIsOpen (CMD_SPC_CHUNK :: cmdBuffer) respHeader with
  | Except.error _ => Except.error (JsValue.str "Error writing SPC data chunk")
  | Except.ok _ =>
    match writeAndWait portIsOpen (prepareBufferForSending buffer) respData with
    | Except.error _ => Except.error (JsValue.str "Error writing SPC data chunk")
    | Except.ok d => Except.ok d

/-- The body loop of `loadSPC`: for each scheduled address, copy the
128-byte window of the program and send it with `writeSpcChunk`,
consuming two device responses per chunk; the first failure aborts. -/
def loadChunks (portIsOpen : Bool) (spcProgram : Nat → Nat) :
    List Nat → List (List Nat) → Except JsValue Unit
  | [], _ => Except.ok ()
  | addr :: rest, responses =>
    let buffer := (List.range SPC_CHUNK_SIZE).map (fun k => spcProgram (addr + k))
    match writeSpcChunk portIsOpen addr buffer (responses.headD [])
        ((responses.drop 1).headD []) with
    | Except.error e => Except.error e
    | Except.ok _ => loadChunks portIsOpen spcProgram rest (responses.drop 2)

/-- `Spcduino.loadSPC(spcProgram)` (part_001 lines 84–105): zero-page
frame `[CMD_START_SPC, ...zeroPage, checksum]`, then the chunked body;
the catch block maps the rejected value through `checksumErrorMsg`.
`responses` is the stream of device responses, one per `writeAndWait`. -/
def loadSPC (portIsOpen : Bool) (spcProgram : Nat → Nat)
    (responses : List (List Nat)) : Except String Unit :=
  match writeAndWait portIsOpen
      (CMD_START_SPC :: prepareBufferForSending (zeroPageBuffer spcProgram))
      (responses.headD []) with
  | Except.error exc =>
      Except.error ("Error loading SPC data: " ++ checksumErrorMsg exc)
  | Except.ok _ =>
    match loadChunks portIsOpen spcProgram spcChunkStarts (responses.drop 1) with
    | Except.error exc =>
        Except.error ("Error loading SPC data: " ++ checksumErrorMsg exc)
    | Except.ok _ => Except.ok ()

/-- `Spcduino.writeBuffer(buffer, offset)` (part_001 lines 162–185),
viewed as the ordered sequence of slices handed to `port.write`: each
iteration writes the slice `[offset, offset + chunkSize)` with
`chunkSize = min(MAX_SEND_SIZE, length - offset)`, drains the port, and
recurses while `offset < length`.  The list order models the
flush-before-next sequencing.  `fuel` only bounds the recursion;
`buffer.length + 1` always suffices. -/
def writeBuffer : Nat → List Nat → Nat → List (List Nat)
  | 0, _, _ => []
  | fuel + 1, buffer, offset =>
    let chunkSize := if buffer.length - offset > MAX_SEND_SIZE then MAX_SEND_SIZE
      else buffer.length - offset
    let sendBuffer := (buffer.drop offset).take chunkSize
    if offset + chunkSize < buffer.length then
      sendBuffer :: writeBuffer fuel buffer (offset + chunkSize)
    else [sendBuffer]

lemma spcChunkStarts_eq :
    spcChunkStarts = (List.range 510).map (fun k => 0x100 + SPC_CHUNK_SIZE * k) := by decide

/-- **C3.** The body phase of image loading transfers every address in
`[0x100, 0x10000)` in exactly one of the scheduled 128-byte chunk
windows, and the chunk start addresses are issued in strictly ascending
order (so the windows do not overlap and no byte is transferred
twice). -/
theorem c3_chunk_cover :
    (∀ a : Nat, 0x100 ≤ a → a < 0x10000 →
      ∃! c, c ∈ spcChunkStarts ∧ c ≤ a ∧ a < c + SPC_CHUNK_SIZE) ∧
    spcChunkStarts.Pairwise (· < ·) := by
  constructor
  · intro a ha₁ ha₂
    rw [spcChunkStarts_eq]
    have hdm := Nat.div_add_mod (a - 0x100) 0x80
    have hmlt : (a - 0x100) % 0x80 < 0x80 := Nat.mod_lt _ (by norm_num)
    refine ⟨0x100 + SPC_CHUNK_SIZE * ((a - 0x100) / 0x80), ⟨?_, ?_, ?_⟩, ?_⟩
    · refine List.mem_map.2 ⟨(a - 0x100) / 0x80, List.mem_range.2 ?_, rfl⟩
      show (a - 0x100) / 0x80 < 510
      omega
    · show 0x100 + 0x80 * ((a - 0x100) / 0x80) ≤ a
      omega
    · show a < 0x100 + 0x80 * ((a - 0x100) / 0x80) + 0x80
      omega
    · rintro c ⟨hc, hca, hac⟩
      rcases List.mem_map.1 hc with ⟨k, hk, rfl⟩
      have hk' : k < 510 := List.mem_range.1 hk
      show 0x100 + 0x80 * k = 0x100 + 0x80 * ((a - 0x100) / 0x80)
      have hca' : 0x100 + 0x80 * k ≤ a := hca
      have hac' : a < 0x100 + 0x80 * k + 0x80 := hac
      omega
  · rw [spcChunkStarts_eq]
    refine List.pairwise_map.2 ?_
    refine (List.pairwise_lt_range 510).imp (fun h => ?_)
    show 0x100 + 0x80 * _ < 0x100 + 0x80 * _
    omega

/-- Witness for C3 at the concrete address `0x1234`. -/
theorem c3_chunk_cover_witness :
    ∃! c, c ∈ spcChunkStarts ∧ c ≤ 0x1234 ∧ 0x1234 < c + SPC_CHUNK_SIZE :=
  c3_chunk_cover.1 0x1234 (by norm_num) (by norm_num)

/-- **C4** (evaluation at the failing input).  The body-phase schedule
issues the chunk starting at `0xFF80`, whose 128-byte window covers the
whole interrupt-vector / IPL region `0xFFC0..0xFFFF` — the loop
condition `currentAddress < 0xFFFF` does not skip it, contradicting the
claim (and the code's own comment "but before IPL RAM"). -/
theorem c4_vector_page_transferred :
    0xFF80 ∈ spcChunkStarts ∧ 0xFF80 ≤ 0xFFC0 ∧ 0xFFC0 < 0xFF80 + SPC_CHUNK_SIZE ∧
    0xFF80 + SPC_CHUNK_SIZE = 0x10000 := by decide

/-- **C5** (evaluation at the failing input).  With the port open, the
device answering OKAY to the DSP-loader frame and `RSP_BAD_CHECKSUM`
to the DSP-register frame, `initDsp` sends exactly the two frames (none
after the rejection) but fails with `'Unknown error'`, not `'Failed
checksum'`: `writeAndWait` rejects with the response *buffer*, and
`exc === RSP_BAD_CHECKSUM` is false for a buffer. -/
theorem c5_bad_checksum_unknown_error : ∀ dspLoaderBytes dspRegisterBytes : List Nat,
    initDsp true dspLoaderBytes dspRegisterBytes [RSP_OKAY] [RSP_BAD_CHECKSUM] =
      ([CMD_LOAD_DSP :: prepareBufferForSending dspLoaderBytes,
        prepareBufferForSending dspRegisterBytes],
       Except.error "Error initializing DSP: Unknown error") :=
  fun _ _ => rfl

/-- **C10.** When the port is not open, `writeAndWait` rejects with
`'Port has not been opened'` for every frame and every device behaviour,
and consequently `reset`, `initDsp`, `loadSPC` and `play` all reject
rather than resolve. -/
theorem c10_port_not_open :
    (∀ frame response, writeAndWait false frame response =
      Except.error (JsValue.str "Port has not been opened")) ∧
    (∀ response, reset false response = Except.error "Error resetting SPC") ∧
    (∀ l r r1 r2, (initDsp false l r r1 r2).2 =
      Except.error "Error initializing DSP: Unknown error") ∧
    (∀ prog responses, loadSPC false prog responses =
      Except.error "Error loading SPC data: Unknown error") ∧
    (∀ addr ports response, play false addr ports response =
      Except.error (JsValue.str "Port has not been opened")) :=
  ⟨fun _ _ => rfl, fun _ => rfl, fun _ _ _ _ => rfl, fun _ _ => rfl, fun _ _ _ => rfl⟩

lemma writeBuffer_spec (buffer : List Nat) : ∀ (fuel : Nat) (offset : Nat),
    buffer.length ≤ offset + fuel →
    (∀ s ∈ writeBuffer fuel buffer offset, s.length ≤ MAX_SEND_SIZE) ∧
    (writeBuffer fuel buffer offset).flatten = buffer.drop offset := by
  intro fuel
  induction fuel with
  | zero =>
    intro offset hle
    constructor
    · intro s hs; simp [writeBuffer] at hs
    · have hnil : List.drop offset buffer = [] := List.drop_eq_nil_of_le (by omega)
      simp [writeBuffer, hnil]
  | succ n ih =>
    intro offset hle
    have hms : MAX_SEND_SIZE = 64 := rfl
    simp only [writeBuffer]
    by_cases hbig : buffer.length - offset > MAX_SEND_SIZE
    · simp only [if_pos hbig]
      have hcond : offset + MAX_SEND_SIZE < buffer.length := by omega
      simp only [if_pos hcond]
      have ihh := ih (offset + MAX_SEND_SIZE) (by omega)
      constructor
      · intro s hs
        rcases List.mem_cons.1 hs with rfl | hs'
        · simp only [List.length_take, List.length_drop]
          omega
        · exact ihh.1 s hs'
      · rw [List.flatten_cons, ihh.2, ← List.drop_drop]
        exact List.take_append_drop _ _
    · simp only [if_neg hbig]
      have hcond : ¬ (offset + (buffer.length - offset) < buffer.length) := by omega
      simp only [if_neg hcond]
      constructor
      · intro s hs
        rcases List.mem_cons.1 hs with rfl | hs'
        · simp only [List.length_take, List.length_drop]
          omega
        · simp at hs'
      · simp only [List.flatten_cons, List.flatten_nil, List.append_nil]
        exact List.take_of_length_le (by simp)

/-- **C8.** `writeBuffer` emits the bytes as a sequence of slices each
no larger than `MAX_SEND_SIZE = 64` bytes (each drained before the next
is sent, modelled by the order of the emitted list), and the
concatenation of the slices in send order is the original buffer. -/
theorem c8_write_slices : ∀ buffer : List Nat,
    (∀ s ∈ writeBuffer (buffer.length + 1) buffer 0, s.length ≤ MAX_SEND_SIZE) ∧
    (writeBuffer (buffer.length + 1) buffer 0).flatten = buffer := by
  intro buffer
  have h := writeBuffer_spec buffer (buffer.length + 1) 0 (by omega)
  exact ⟨h.1, by simpa using h.2⟩

/-- Witness for C8: a 150-byte buffer is sent as slices `64 + 64 + 22`;
the first slice is 64-byte long and within bounds. -/
theorem c8_write_slices_witness : (List.replicate 64 7).length ≤ MAX_SEND_SIZE :=
  (c8_write_slices (List.replicate 150 7)).1 (List.replicate 64 7) (by decide)

/-! ## Binary image composer (src/spc-writer.ts, src/programs.ts and
their revisions)

`null` entries of the template byte arrays are patch slots; `Buffer.from`
coerces them to `0`. -/

/-- Lower bound for where the boot loader can be written. -/
def LOWEST_BOOTABLE_ADDRESS : Nat := 0x100
/-- Upper bound for where the boot loader can be written. -/
def HIGHEST_BOOTABLE_ADDRESS : Nat := 0xFFBF

/-- The `BootLoader` template from src/programs.ts (47 bytes; `null`
patch slots as `0`). -/
def BootLoader : List Nat :=
  [0x8F, 0x00, 0x00,
   0x8F, 0x00, 0x01,
   0x8F, 0xB0, 0xF1,
   0xCD, 0x53,
   0xD8, 0xF4,
   0xE4, 0xF4,
   0x68, 0x00,
   0xD0, 0xFA,
   0xE4, 0xF7,
   0x68, 0x00,
   0xD0, 0xFA,
   0x8F, 0x00, 0xF1,
   0x8F, 0x6C, 0xF2,
   0x8F, 0x00, 0xF3,
   0x8F, 0x4C, 0xF2,
   0x8F, 0x00, 0xF3,
   0x8F, 0x00, 0xF2,
   0xAE,
   0xCE,
   0xEE,
   0x7F]

/-- The `DspLoader` template from src/programs.ts (28 bytes; `null`
patch slots as `0`). -/
def DspLoader : List Nat :=
  [0xC4, 0xF2,
   0x64, 0xF4,
   0xD0, 0xFC,
   0xFA, 0xF5, 0xF3,
   0xC4, 0xF4,
   0xBC,
   0x10, 0xF2,
   0x8F, 0x00, 0xFC,
   0x8F, 0x00, 0xFB,
   0x8F, 0x00, 0xFA,
   0xCD, 0x00,
   0xBD,
   0x2F, 0xAB]

/-- The parsed SPC snapshot (the `ISpc` result of `spc-reader`):
64KB program memory and DSP register bank as byte-valued functions,
plus the CPU registers. -/
structure Snapshot where
  programData : Nat → Nat
  dspRegisters : Nat → Nat
  regA : Nat
  regX : Nat
  regY : Nat
  regPSW : Nat
  regPC : Nat
  regSP : Nat

/-- One inner-window check of `findBootLoaderAddress`: the `j`-loop over
`[i - size, i)` succeeds iff every byte there equals `programData[i]`. -/
def bootWindowIsBlank (programData : Nat → Nat) (i size : Nat) : Bool :=
  (List.range size).all (fun k => programData (i - size + k) == programData i)

/-- The scan loop of `SpcWriter.findBootLoaderAddress`: `i` runs from
`HIGHEST_BOOTABLE_ADDRESS` downwards while
`i > LOWEST_BOOTABLE_ADDRESS + bootLoaderSize`; here `i =
LOWEST_BOOTABLE_ADDRESS + bootLoaderSize + n` and `n` counts the
remaining iterations.  The first window of one repeated byte value wins
and its start `i - bootLoaderSize` is returned; `none` models the
`-1` not-found signal. -/
def findLoop (programData : Nat → Nat) (bootLoaderSize : Nat) : Nat → Option Nat
  | 0 => none
  | n + 1 =>
    let i := LOWEST_BOOTABLE_ADDRESS + bootLoaderSize + (n + 1)
    if programData i == programData (i - bootLoaderSize) &&
        bootWindowIsBlank programData i bootLoaderSize then
      some (i - bootLoaderSize)
    else
      findLoop programData bootLoaderSize n

/-- `SpcWriter.findBootLoaderAddress`: scan from
`HIGHEST_BOOTABLE_ADDRESS` down to `LOWEST_BOOTABLE_ADDRESS +
BootLoader.length + 1`. -/
def findBootLoaderAddress (programData : Nat → Nat) : Option Nat :=
  findLoop programData BootLoader.length
    (HIGHEST_BOOTABLE_ADDRESS - (LOWEST_BOOTABLE_ADDRESS + BootLoader.length))

/-- `SpcWriter.writeBootLoader`'s patching step (part_002 lines
201–210): a private copy of the `BootLoader` template with the eight
patch slots overwritten from the snapshot.  Slot `0x10` receives
`programData[0xF4]` unconditionally. -/
def writeBootLoader (s : Snapshot) : List Nat :=
  ((((((((BootLoader.set 0x01 (s.programData 0x00)).set
    0x04 (s.programData 0x01)).set
    0x10 (s.programData 0xF4)).set
    0x16 (s.programData 0xF7)).set
    0x1A (s.programData 0xF1 &&& 0xCF)).set
    0x20 (s.dspRegisters 0x6C)).set
    0x26 (s.dspRegisters 0x47)).set
    0x29 (s.programData 0xF2))

/-- `SpcWriter.writeDspLoader`'s patching step: a private copy of the
`DspLoader` template with the three timer slots and the stack-pointer
slot overwritten. -/
def writeDspLoader (s : Snapshot) : List Nat :=
  (((DspLoader.set 0x0F (s.programData 0xFC)).set
    0x12 (s.programData 0xFB)).set
    0x15 (s.programData 0xFA)).set
    0x18 (s.regSP - 6)

/-- A single byte store into a memory image. -/
def setByte (mem : Nat → Nat) (addr v : Nat) : Nat → Nat :=
  fun a => if a = addr then v else mem a

/-- `src.copy(mem, targetStart)`: overwrite `[targetStart, targetStart +
src.length)` of `mem` with `src`. -/
def copyInto (mem : Nat → Nat) (src : List Nat) (targetStart : Nat) : Nat → Nat :=
  fun a => if targetStart ≤ a ∧ a < targetStart + src.length then src.getD (a - targetStart) 0
    else mem a

/-- `SpcWriter.write()` from src/src/spc-writer.ts lines 35–50: copy of
the program data with the boot loader blitted at `bootLoaderOffset`,
`[0xFF] := stackPointer` and the six-byte return frame stored at
`stackPointer + 1 .. + 6` where `stackPointer = regSP - 6` — without a
`0x100` stack-page base. -/
def SpcWriter.write (s : Snapshot) (bootLoaderOffset : Nat) : Nat → Nat :=
  let programData := copyInto s.programData (writeBootLoader s) bootLoaderOffset
  let stackPointer := s.regSP - 6
  setByte (setByte (setByte (setByte (setByte (setByte (setByte programData
    0xFF stackPointer)
    (stackPointer + 1) s.regA)
    (stackPointer + 2) s.regX)
    (stackPointer + 3) s.regY)
    (stackPointer + 4) s.regPSW)
    (stackPointer + 5) (s.regPC &&& 0xFF))
    (stackPointer + 6) (s.regPC >>> 8)

/-- `SpcWriter.play()` from the revised spc-writer (part_002 lines
171–187): as `SpcWriter.write`, but the six return-frame stores go to
`0x100 + stackPointer + 1 .. + 6` ("stack space is at 0x100");
`[0xFF]` still receives `stackPointer` itself. -/
def SpcWriter.play (s : Snapshot) (bootLoaderOffset : Nat) : Nat → Nat :=
  let programData := copyInto s.programData (writeBootLoader s) bootLoaderOffset
  let stackPointer₀ := s.regSP - 6
  let stackPointer := 0x100 + stackPointer₀
  setByte (setByte (setByte (setByte (setByte (setByte (setByte programData
    0xFF stackPointer₀)
    (stackPointer + 1) s.regA)
    (stackPointer + 2) s.regX)
    (stackPointer + 3) s.regY)
    (stackPointer + 4) s.regPSW)
    (stackPointer + 5) (s.regPC &&& 0xFF))
    (stackPointer + 6) (s.regPC >>> 8)

lemma findLoop_bounds (programData : Nat → Nat) (size : Nat) :
    ∀ n offset, findLoop programData size n = some offset →
      LOWEST_BOOTABLE_ADDRESS < offset ∧
      offset + size ≤ LOWEST_BOOTABLE_ADDRESS + size + n := by
  intro n
  induction n with
  | zero => intro offset h; simp [findLoop] at h
  | succ m ih =>
    intro offset h
    rw [findLoop] at h
    split at h
    · have hoff : LOWEST_BOOTABLE_ADDRESS + size + (m + 1) - size = offset :=
        Option.some.inj h
      have : LOWEST_BOOTABLE_ADDRESS = 0x100 := rfl
      omega
    · have := ih offset h
      omega

/-- **C2** (amended).  Whenever `findBootLoaderAddress` returns an
offset, the stub window `[offset, offset + BootLoader.length)` lies
entirely inside `[LOWEST_BOOTABLE_ADDRESS, HIGHEST_BOOTABLE_ADDRESS]` =
`[0x100, 0xFFBF]`.  (The search takes no account of the DSP echo
region; see the counterexample.) -/
theorem c2_window_in_bounds (programData : Nat → Nat) (offset : Nat)
    (h : findBootLoaderAddress programData = some offset) :
    LOWEST_BOOTABLE_ADDRESS ≤ offset ∧
    offset + BootLoader.length ≤ HIGHEST_BOOTABLE_ADDRESS := by
  have hb := findLoop_bounds programData BootLoader.length
    (HIGHEST_BOOTABLE_ADDRESS - (LOWEST_BOOTABLE_ADDRESS + BootLoader.length)) offset h
  have h1 : LOWEST_BOOTABLE_ADDRESS = 0x100 := rfl
  have h2 : HIGHEST_BOOTABLE_ADDRESS = 0xFFBF := rfl
  have h3 : BootLoader.length = 47 := rfl
  omega

/-- Witness for C2 on the constant-`0xAA` memory image. -/
theorem c2_window_in_bounds_witness :
    LOWEST_BOOTABLE_ADDRESS ≤ 0xFF90 ∧
    0xFF90 + BootLoader.length ≤ HIGHEST_BOOTABLE_ADDRESS :=
  c2_window_in_bounds (fun _ => 0xAA) 0xFF90 (by decide)

/-- **C2** (counterexample to the claim as stated).  On the
constant-`0xAA` image with the DSP echo buffer at `echoAddress =
dspRegisters[0x6D] * 0x100 = 0xFF00` and `echoSize = dspRegisters[0x7D]
* 0x800 = 0x800` (registers `0x6D = 0xFF`, `0x7D = 0x01`), the search
returns `0xFF90`, and the chosen window `[0xFF90, 0xFF90 + 47)` is not
disjoint from `[0xFF00, 0xFF00 + 0x800)`: the code never consults the
echo region. -/
theorem c2_echo_overlap_counterexample :
    findBootLoaderAddress (fun _ => 0xAA) = some 0xFF90 ∧
    ¬ (0xFF90 + BootLoader.length ≤ 0xFF00 ∨ 0xFF00 + 0x800 ≤ 0xFF90) := by decide

/-- A concrete snapshot used to evaluate the composer: constant memory
`0x11`, constant DSP bank `0x22`, registers `A = 0xAA`, `X = 0xBB`,
`Y = 0xCC`, `PSW = 0xDD`, `PC = 0x1234`, `SP = 0xEF`. -/
def sampleSnapshot : Snapshot where
  programData := fun _ => 0x11
  dspRegisters := fun _ => 0x22
  regA := 0xAA
  regX := 0xBB
  regY := 0xCC
  regPSW := 0xDD
  regPC := 0x1234
  regSP := 0xEF

/-- **C1** (evaluation at the failing input).  On `sampleSnapshot`
(`SP = 0xEF ≥ 6`, stub blitted at `0xFF90`), both finalizers set
`[0xFF] = SP - 6 = 0xE9`, but `SpcWriter.write` leaves
`0x100 + (SP-6) + 1 = 0x1EA` at its original value `0x11` and instead
stores `A` at `(SP-6) + 1 = 0xEA` in the zero page, while the revised
`SpcWriter.play` stores the frame at `0x100 + (SP-6) + 1 .. + 6`
exactly as the claim states. -/
theorem c1_stack_frame_eval :
    SpcWriter.write sampleSnapshot 0xFF90 0xFF = 0xEF - 6 ∧
    SpcWriter.write sampleSnapshot 0xFF90 (0x100 + (0xEF - 6) + 1) = 0x11 ∧
    SpcWriter.write sampleSnapshot 0xFF90 ((0xEF - 6) + 1) = 0xAA ∧
    SpcWriter.play sampleSnapshot 0xFF90 0xFF = 0xEF - 6 ∧
    SpcWriter.play sampleSnapshot 0xFF90 (0x100 + (0xEF - 6) + 1) = 0xAA ∧
    SpcWriter.play sampleSnapshot 0xFF90 (0x100 + (0xEF - 6) + 2) = 0xBB ∧
    SpcWriter.play sampleSnapshot 0xFF90 (0x100 + (0xEF - 6) + 3) = 0xCC ∧
    SpcWriter.play sampleSnapshot 0xFF90 (0x100 + (0xEF - 6) + 4) = 0xDD ∧
    SpcWriter.play sampleSnapshot 0xFF90 (0x100 + (0xEF - 6) + 5) = 0x34 ∧
    SpcWriter.play sampleSnapshot 0xFF90 (0x100 + (0xEF - 6) + 6) = 0x12 := by decide

/-- **C6** (amended).  For every snapshot, boot stub slot `0x10`
receives `programData[0xF4]`, unconditionally: there is no sentinel
special case. -/
theorem c6_slot_always_port0 (s : Snapshot) :
    (writeBootLoader s).getD 0x10 0 = s.programData 0xF4 := rfl

/-- A snapshot whose four port-input bytes `0xF4..0xF7` (indeed, all of
program memory) are `0x00`. -/
def zeroPortsSnapshot : Snapshot where
  programData := fun _ => 0
  dspRegisters := fun _ => 0x22
  regA := 1
  regX := 2
  regY := 3
  regPSW := 4
  regPC := 0x500
  regSP := 0xEF

/-- **C6** (counterexample to the claim as stated).  With all four port
bytes `0xF4..0xF7` equal to `0x00`, slot `0x10` of the patched boot
stub is `0x00` — not a distinct sentinel value. -/
theorem c6_sentinel_counterexample :
    zeroPortsSnapshot.programData 0xF4 = 0 ∧
    zeroPortsSnapshot.programData 0xF5 = 0 ∧
    zeroPortsSnapshot.programData 0xF6 = 0 ∧
    zeroPortsSnapshot.programData 0xF7 = 0 ∧
    (writeBootLoader zeroPortsSnapshot).getD 0x10 0 = 0 := by decide

/-! ## Template immutability (C9)

To state that the patch-slot writes never hit the global template byte
arrays, buffers are modelled as heap cells addressed by references, so
that aliasing is expressible: `Buffer.alloc` yields a fresh reference,
`source.copy(target)` and `buf[i] = v` mutate the contents of one
cell.  The loader-building methods are re-expressed as heap programs
whose writes all target the reference returned by `Buffer.alloc`. -/

/-- A heap of byte buffers: `cells r` is the contents of the buffer with
reference `r`; references `≥ fresh` are unallocated. -/
structure Heap where
  cells : Nat → List Nat
  fresh : Nat

/-- `Buffer.alloc(size)`: a zero-filled buffer in a fresh cell (the new
reference is `h.fresh`). -/
def halloc (h : Heap) (size : Nat) : Heap where
  cells := fun r => if r = h.fresh then List.replicate size 0 else h.cells r
  fresh := h.fresh + 1

/-- `source.copy(target)` with both buffers of interest: overwrite the
first `min (srcLen, dstLen)` bytes of `dst`'s cell with `src`'s. -/
def hcopy (h : Heap) (src dst : Nat) : Heap where
  cells := fun r =>
    if r = dst then
      let n := min (h.cells src).length (h.cells dst).length
      (h.cells src).take n ++ (h.cells dst).drop n
    else h.cells r
  fresh := h.fresh

/-- `buf[idx] = v` on the buffer referenced by `ref`. -/
def hset (h : Heap) (ref idx v : Nat) : Heap where
  cells := fun r => if r = ref then (h.cells ref).set idx v else h.cells r
  fresh := h.fresh

/-- `SpcWriter.writeBootLoader` (part_002 lines 201–210) as a heap
program: `this.bootLoader = Buffer.alloc(BootLoader.length)` (the fresh
reference), `BootLoader.copy(this.bootLoader)`, then the eight patch
writes — all addressed to the fresh `this.bootLoader` cell, never to
`bootLoaderTmpl`. -/
def SpcWriter.writeBootLoaderH (s : Snapshot) (bootLoaderTmpl : Nat) (h : Heap) :
    Nat × Heap :=
  let ref := h.fresh
  let h1 := halloc h (h.cells bootLoaderTmpl).length
  let h2 := hcopy h1 bootLoaderTmpl ref
  let h3 := hset h2 ref 0x01 (s.programData 0x00)
  let h4 := hset h3 ref 0x04 (s.programData 0x01)
  let h5 := hset h4 ref 0x10 (s.programData 0xF4)
  let h6 := hset h5 ref 0x16 (s.programData 0xF7)
  let h7 := hset h6 ref 0x1A (s.programData 0xF1 &&& 0xCF)
  let h8 := hset h7 ref 0x20 (s.dspRegisters 0x6C)
  let h9 := hset h8 ref 0x26 (s.dspRegisters 0x47)
  (ref, hset h9 ref 0x29 (s.programData 0xF2))

/-- `SpcWriter.writeDspLoader` (part_002 lines 216–223) as a heap
program. -/
def SpcWriter.writeDspLoaderH (s : Snapshot) (dspLoaderTmpl : Nat) (h : Heap) :
    Nat × Heap :=
  let ref := h.fresh
  let h1 := halloc h (h.cells dspLoaderTmpl).length
  let h2 := hcopy h1 dspLoaderTmpl ref
  let h3 := hset h2 ref 0x0F (s.programData 0xFC)
  let h4 := hset h3 ref 0x12 (s.programData 0xFB)
  let h5 := hset h4 ref 0x15 (s.programData 0xFA)
  (ref, hset h5 ref 0x18 (s.regSP - 6))

lemma halloc_cells_ne (h : Heap) (size r : Nat) (hr : r ≠ h.fresh) :
    (halloc h size).cells r = h.cells r := by simp [halloc, hr]

lemma hcopy_cells_ne (h : Heap) (src dst r : Nat) (hr : r ≠ dst) :
    (hcopy h src dst).cells r = h.cells r := by simp [hcopy, hr]

lemma hset_cells_ne (h : Heap) (ref idx v r : Nat) (hr : r ≠ ref) :
    (hset h ref idx v).cells r = h.cells r := by simp [hset, hr]

lemma writeBootLoaderH_cells_ne (s : Snapshot) (tmpl : Nat) (h : Heap) (r : Nat)
    (hr : r ≠ h.fresh) :
    (SpcWriter.writeBootLoaderH s tmpl h).2.cells r = h.cells r := by
  simp only [SpcWriter.writeBootLoaderH]
  rw [hset_cells_ne _ _ _ _ _ hr, hset_cells_ne _ _ _ _ _ hr, hset_cells_ne _ _ _ _ _ hr,
    hset_cells_ne _ _ _ _ _ hr, hset_cells_ne _ _ _ _ _ hr, hset_cells_ne _ _ _ _ _ hr,
    hset_cells_ne _ _ _ _ _ hr, hset_cells_ne _ _ _ _ _ hr, hcopy_cells_ne _ _ _ _ hr,
    halloc_cells_ne _ _ _ hr]

lemma writeBootLoaderH_fresh (s : Snapshot) (tmpl : Nat) (h : Heap) :
    (SpcWriter.writeBootLoaderH s tmpl h).2.fresh = h.fresh + 1 := rfl

lemma writeDspLoaderH_cells_ne (s : Snapshot) (tmpl : Nat) (h : Heap) (r : Nat)
    (hr : r ≠ h.fresh) :
    (SpcWriter.writeDspLoaderH s tmpl h).2.cells r = h.cells r := by
  simp only [SpcWriter.writeDspLoaderH]
  rw [hset_cells_ne _ _ _ _ _ hr, hset_cells_ne _ _ _ _ _ hr, hset_cells_ne _ _ _ _ _ hr,
    hset_cells_ne _ _ _ _ _ hr, hcopy_cells_ne _ _ _ _ hr, halloc_cells_ne _ _ _ hr]

/-- **C9.** Building the patched boot stub and DSP stub leaves the
template cells untouched: for any already-allocated template references,
the heap contents at those references after `writeBootLoader` followed
by `writeDspLoader` are exactly what they were before — every patch
write goes to the freshly allocated private copy. -/
theorem c9_templates_preserved (s : Snapshot) (bootTmpl dspTmpl : Nat) (h : Heap)
    (hb : bootTmpl < h.fresh) (hd : dspTmpl < h.fresh) :
    ((SpcWriter.writeDspLoaderH s dspTmpl
        (SpcWriter.writeBootLoaderH s bootTmpl h).2).2).cells bootTmpl = h.cells bootTmpl ∧
    ((SpcWriter.writeDspLoaderH s dspTmpl
        (SpcWriter.writeBootLoaderH s bootTmpl h).2).2).cells dspTmpl = h.cells dspTmpl := by
  have hfresh := writeBootLoaderH_fresh s bootTmpl h
  constructor
  · rw [writeDspLoaderH_cells_ne _ _ _ _ (by omega),
      writeBootLoaderH_cells_ne _ _ _ _ (by omega)]
  · rw [writeDspLoaderH_cells_ne _ _ _ _ (by omega),
      writeBootLoaderH_cells_ne _ _ _ _ (by omega)]

/-- A concrete two-cell heap holding the two templates at references
`0` and `1`. -/
def templateHeap : Heap where
  cells := fun r => if r = 0 then BootLoader else if r = 1 then DspLoader else []
  fresh := 2

/-- Witness for C9 on the concrete heap `templateHeap` and
`sampleSnapshot`. -/
theorem c9_templates_preserved_witness :
    ((SpcWriter.writeDspLoaderH sampleSnapshot 1
        (SpcWriter.writeBootLoaderH sampleSnapshot 0 templateHeap).2).2).cells 0 =
      templateHeap.cells 0 ∧
    ((SpcWriter.writeDspLoaderH sampleSnapshot 1
        (SpcWriter.writeBootLoaderH sampleSnapshot 0 templateHeap).2).2).cells 1 =
      templateHeap.cells 1 :=
  c9_templates_preserved sampleSnapshot 0 1 templateHeap (by decide) (by decide)

end SpcPlayer
